import Mathlib

/-!
Verification development for the RepoAnalyzer-Pro asynchronous
multi-analysis job orchestrator.

The Python source (`config.py`, `api_handlers.py`, `main.py`) is shallowly
embedded below.  External effects (the Gemini network call, `json.loads`,
`clone_repo`, `parse_repo`, thread-pool completion order) are modelled as
explicit oracle parameters; everything the repository itself computes is
translated directly from the source.
-/

namespace RepoAnalyzer

/-- JSON-like values, the shape of every `Dict[str, Any]` that flows through
`api_handlers.py` and `main.py` (the values produced by `json.loads` and by
the hand-written fallback dictionaries). -/
inductive JVal where
  | jstr : String → JVal
  | jnum : Int → JVal
  | jbool : Bool → JVal
  | jnull : JVal
  | jarr : List JVal → JVal
  | jobj : List (String × JVal) → JVal
deriving Repr

/-- A Python dict with string keys, as an association list (insertion order,
unique keys in every dict the source builds). -/
abbrev JDict := List (String × JVal)

mutual
/-- Models Python `repr` on the JSON-like values above (single-quoted strings,
`True`/`False`/`None`, `[..]` lists, `{'k': v}` dicts; string escaping is not
modelled since no claim depends on it). -/
def pyRepr : JVal → String
  | .jstr s => "\x27" ++ s ++ "\x27"
  | .jnum n => toString n
  | .jbool b => if b then "True" else "False"
  | .jnull => "None"
  | .jarr xs => "[" ++ pyReprArr xs ++ "]"
  | .jobj fs => "\x7b" ++ pyReprObj fs ++ "\x7d"

/-- Comma-separated `repr` of the elements of a Python list. -/
def pyReprArr : List JVal → String
  | [] => ""
  | x :: xs => pyRepr x ++ (if xs.isEmpty then "" else ", ") ++ pyReprArr xs

/-- Comma-separated `repr` of the entries of a Python dict. -/
def pyReprObj : List (String × JVal) → String
  | [] => ""
  | (k, v) :: fs =>
      "\x27" ++ k ++ "\x27: " ++ pyRepr v ++ (if fs.isEmpty then "" else ", ") ++ pyReprObj fs
end

/-- Models Python `str`: the identity on strings, `repr` on everything else
(the source applies `str(...)` to error values before substring tests). -/
def pyStr : JVal → String
  | .jstr s => s
  | v => pyRepr v

/-- `prefixMatch n h` is true when the character list `n` is an initial
segment of `h` (helper for the Python `in` substring test). -/
def prefixMatch : List Char → List Char → Bool
  | [], _ => true
  | _ :: _, [] => false
  | a :: as, b :: bs => a = b && prefixMatch as bs

/-- `containsSeq n h` is true when `n` occurs contiguously somewhere in `h`. -/
def containsSeq (needle : List Char) : List Char → Bool
  | [] => prefixMatch needle []
  | c :: rest => prefixMatch needle (c :: rest) || containsSeq needle rest

/-- Models the Python substring test `needle in hay` on strings. -/
def strContains (hay needle : String) : Bool :=
  containsSeq needle.data hay.data

/-- Models Python `str.lower()` on the ASCII range (no claim involves
non-ASCII error text). -/
def strToLower (s : String) : String :=
  String.mk (s.data.map Char.toLower)

/-- Models the quota test of `api_handlers.py` lines 58 and 66:
`"429" in s or "quota" in s.lower()`. -/
def isQuotaMsg (s : String) : Bool :=
  strContains s "429" || strContains (strToLower s) "quota"

/-- The five analysis types, the keys of `GEMINI_APIS` in `config.py` and of
the `results` dict built in `main.py`. -/
inductive AnalysisKind where
  | architecture_flow
  | mind_map
  | code_quality
  | security
  | performance
deriving DecidableEq, Repr

/-- The fixed list of all five analysis kinds. -/
def allKinds : List AnalysisKind :=
  [.architecture_flow, .mind_map, .code_quality, .security, .performance]

/-- The credential environment read by `config.py`: one slot per analysis
kind (`GEMINI_APIS`, empty string when the variable is unset, as
`os.getenv(_, "")` yields) plus the single fallback slot `GEMINI_API_KEY`
(`DEFAULT_API_KEY`). -/
structure Env where
  gemini_apis : AnalysisKind → String
  default_api_key : String

/-- `config.get_api_key` (config.py lines 50-62): the kind-specific key when
non-empty, else the default key when non-empty, else the empty string. -/
def get_api_key (env : Env) (analysis_type : AnalysisKind) : String :=
  let api_key := env.gemini_apis analysis_type
  if api_key ≠ "" then api_key
  else if env.default_api_key ≠ "" then env.default_api_key
  else ""

/-- `APIAnalyzer.__init__` (api_handlers.py lines 34-36): retry ceiling and
base backoff delay. -/
structure APIAnalyzer where
  max_retries : Nat
  retry_delay : Nat

/-- The global `api_analyzer = APIAnalyzer()` instance (api_handlers.py line
234): `max_retries = 2`, `retry_delay = 1`. -/
def api_analyzer : APIAnalyzer := ⟨2, 1⟩

/-- `APIAnalyzer._get_fallback_response` (api_handlers.py lines 103-231),
transcribed field by field.  `error_type` is the string tag the source
passes (`"NO_API_KEY"`, `"QUOTA_EXCEEDED"`, `"API_FAILED"`); any other tag
selects the generic messages, as in the source's `else` branch. -/
def get_fallback_response (analysis_type : AnalysisKind) (error_type : String) : JDict :=
  let error_message :=
    if error_type = "QUOTA_EXCEEDED" then
      "API quota exceeded. Please check your Gemini API billing and quota limits."
    else if error_type = "NO_API_KEY" then
      "No API key configured. Please set up your Gemini API keys in the .env file."
    else
      "API analysis failed due to technical issues."
  let action_message :=
    if error_type = "QUOTA_EXCEEDED" then
      "Upgrade your Gemini API plan or wait for quota reset"
    else if error_type = "NO_API_KEY" then
      "Configure API keys in .env file"
    else
      "Check your internet connection and API key validity"
  match analysis_type with
  | .architecture_flow =>
    [("architecture_summary", .jstr ("Unable to analyze architecture: " ++ error_message)),
     ("execution_flow", .jarr
        [.jobj [("step", .jnum 1),
                ("description", .jstr "Analysis unavailable due to API issues"),
                ("files_involved", .jarr [.jstr "N/A"]),
                ("purpose", .jstr "Please check API configuration")]]),
     ("main_components", .jarr
        [.jobj [("name", .jstr "API Configuration"),
                ("purpose", .jstr "Ensure proper API key setup"),
                ("location", .jstr ".env file"),
                ("dependencies", .jarr [.jstr "Valid Gemini API key"])]]),
     ("entry_points", .jarr [.jstr action_message]),
     ("data_flow", .jstr "Analysis unavailable - check API setup"),
     ("key_insights", .jarr [.jstr ("Action required: " ++ action_message)]),
     ("complexity_level", .jstr "UNKNOWN")]
  | .mind_map =>
    [("mind_map_overview", .jstr ("Unable to generate mind map: " ++ error_message)),
     ("main_categories", .jarr
        [.jobj [("category", .jstr "Setup Required"),
                ("description", .jstr "API configuration needed"),
                ("subcategories", .jarr
                   [.jobj [("name", .jstr "API Keys"),
                           ("files", .jarr [.jstr ".env"]),
                           ("purpose", .jstr "Configure Gemini API keys")]]),
                ("importance", .jstr "HIGH")]]),
     ("core_features", .jarr [.jstr "API Key Management"]),
     ("file_relationships", .jarr
        [.jobj [("from", .jstr "User"),
                ("to", .jstr "API Configuration"),
                ("relationship", .jstr "Setup required")]]),
     ("visual_structure", .jstr "Configure API keys to enable analysis"),
     ("key_insights", .jarr [.jstr ("Next step: " ++ action_message)])]
  | .code_quality =>
    [("quality_overview", .jstr ("Unable to analyze code quality: " ++ error_message)),
     ("quality_score", .jstr "0/10 - API configuration required"),
     ("strengths", .jarr [.jstr "Error handling is working correctly"]),
     ("areas_for_improvement", .jarr
        [.jobj [("area", .jstr "API Configuration"),
                ("current_state", .jstr "API keys not configured or quota exceeded"),
                ("recommendation", .jstr action_message),
                ("priority", .jstr "HIGH")]]),
     ("code_organization", .jstr "Analysis unavailable"),
     ("readability", .jstr "Analysis unavailable"),
     ("documentation_status", .jstr "Analysis unavailable"),
     ("testing_coverage", .jstr "Analysis unavailable"),
     ("maintainability", .jstr "Analysis unavailable"),
     ("immediate_improvements", .jarr [.jstr action_message])]
  | .security =>
    [("security_overview", .jstr ("Unable to perform security analysis: " ++ error_message)),
     ("critical_issues", .jarr
        [.jobj [("issue", .jstr "API Configuration Issue"),
                ("severity", .jstr "HIGH"),
                ("impact", .jstr "Security analysis unavailable"),
                ("fix", .jstr action_message)]]),
     ("security_strengths", .jarr [.jstr "Error handling prevents crashes"]),
     ("authentication_status", .jstr "Analysis unavailable"),
     ("data_protection", .jstr "Analysis unavailable"),
     ("immediate_actions", .jarr [.jstr action_message]),
     ("overall_risk", .jstr "UNKNOWN"),
     ("security_score", .jstr "0/10 - API setup required")]
  | .performance =>
    [("performance_overview", .jstr ("Unable to analyze performance: " ++ error_message)),
     ("performance_score", .jstr "0/10 - API configuration required"),
     ("bottlenecks", .jarr
        [.jobj [("issue", .jstr "API Configuration"),
                ("impact", .jstr "Performance analysis unavailable"),
                ("location", .jstr "API setup"),
                ("solution", .jstr action_message)]]),
     ("optimization_opportunities", .jarr
        [.jobj [("area", .jstr "API Setup"),
                ("potential_gain", .jstr "Enable all analysis features"),
                ("effort", .jstr "LOW"),
                ("recommendation", .jstr action_message)]]),
     ("scalability", .jstr "Analysis unavailable"),
     ("resource_efficiency", .jstr "Analysis unavailable"),
     ("caching_strategies", .jstr "Analysis unavailable"),
     ("database_performance", .jstr "Analysis unavailable"),
     ("monitoring_suggestions", .jarr [.jstr action_message]),
     ("quick_wins", .jarr [.jstr action_message])]

/-- Keep the character list up to (and including) its last `}`; empty when no
`}` occurs.  Helper for the greedy regex model below. -/
def upToLastRBrace (cs : List Char) : List Char :=
  (cs.reverse.dropWhile (fun c => c ≠ '}')).reverse

/-- Models `re.search(r'\x7b[\s\S]*\x7d', text)` from `_call_gemini_api`
(api_handlers.py line 89): the leftmost match of the greedy pattern starts at
the first `{` that has some `}` after it and extends to the last `}` of the
text; `none` when no such pair exists. -/
def greedyBraceExtract : List Char → Option (List Char)
  | [] => none
  | c :: rest =>
      if c = '{' ∧ rest.contains '}' then some (c :: upToLastRBrace rest)
      else greedyBraceExtract rest

/-- Outcome of the external Gemini call `model.generate_content(prompt)`
inside `_call_gemini_api`: the provider either raises (caught by the outer
`except` at api_handlers.py line 99) or yields a response text. -/
inductive ProviderOutcome where
  | raises : String → ProviderOutcome
  | responds : String → ProviderOutcome

/-- The JSON-extraction pipeline of `_call_gemini_api` (api_handlers.py lines
83-97), parameterized by the external `json.loads` (modelled as a partial
parse `String → Option JDict`, `none` on a `JSONDecodeError`): parse the raw
body; on failure extract the greedy `{...}` substring and parse that; on
failure of either step return the structured parse-error dict with the raw
response attached. -/
def extractJson (jsonLoads : String → Option JDict) (text : String) : JDict :=
  match jsonLoads text with
  | some v => v
  | none =>
    match greedyBraceExtract text.data with
    | some sub =>
      match jsonLoads (String.mk sub) with
      | some v => v
      | none => [("error", .jstr "Could not parse response as JSON"),
                 ("raw_response", .jstr text)]
    | none => [("error", .jstr "Could not parse response as JSON"),
               ("raw_response", .jstr text)]

/-- The body of `_call_gemini_api`'s outer `try` block, before the outer
`except` is applied: a provider fault propagates as an exception
(`Except.error`), everything else resolves to a dict. -/
def callGeminiApiTry (jsonLoads : String → Option JDict) : ProviderOutcome → Except String JDict
  | .raises m => .error m
  | .responds text => .ok (extractJson jsonLoads text)

/-- `APIAnalyzer._call_gemini_api` (api_handlers.py lines 76-101): the outer
`except Exception` converts any provider fault into `{"error": str(e)}`, so
the function always returns a dict. -/
def callGeminiApi (jsonLoads : String → Option JDict) (po : ProviderOutcome) : JDict :=
  match callGeminiApiTry jsonLoads po with
  | .error m => [("error", .jstr m)]
  | .ok d => d

/-- One observed behaviour of `self._call_gemini_api(prompt, api_key)` as seen
from `analyze_with_retry`: either it returns a dict (`ok`) or it raises
(`exn`, the defensive `except` branch at api_handlers.py line 62). -/
inductive CallResult where
  | ok : JDict → CallResult
  | exn : String → CallResult

/-- Python truthiness of a dict: non-empty. -/
def pyTruthy (d : JDict) : Bool := !d.isEmpty

/-- The `error_msg` computed at api_handlers.py line 54:
`result.get("error", "Unknown error") if result else "No response"`. -/
def attemptErrMsg (d : JDict) : JVal :=
  if pyTruthy d then (d.lookup "error").getD (.jstr "Unknown error")
  else .jstr "No response"

/-- The retry loop of `analyze_with_retry` (api_handlers.py lines 45-74),
written as recursion on the number of attempts left.  `outcomes i` is the
oracle for the call made on attempt index `i`; `attempt` is the current
index.  Returns the resulting dict together with the number of calls made
from this point on and the list of `time.sleep` durations taken (the source
sleeps `retry_delay * (attempt + 1)` when the attempt is not the last one).
After the last attempt the source falls through to the `API_FAILED`
fallback (line 74). -/
def analyzeFrom (kind : AnalysisKind) (outcomes : Nat → CallResult) (delay : Nat) :
    Nat → Nat → JDict × Nat × List Nat
  | 0, _ => (get_fallback_response kind "API_FAILED", 0, [])
  | left + 1, attempt =>
    let go : JDict × Nat × List Nat :=
      let s0 : List Nat := if left > 0 then [delay * (attempt + 1)] else []
      let r := analyzeFrom kind outcomes delay left (attempt + 1)
      (r.1, r.2.1 + 1, s0 ++ r.2.2)
    match outcomes attempt with
    | .exn m =>
      if isQuotaMsg m then (get_fallback_response kind "QUOTA_EXCEEDED", 1, [])
      else go
    | .ok d =>
      if pyTruthy d && (d.lookup "error").isNone then (d, 1, [])
      else if isQuotaMsg (pyStr (attemptErrMsg d)) then
        (get_fallback_response kind "QUOTA_EXCEEDED", 1, [])
      else go

/-- `APIAnalyzer.analyze_with_retry` (api_handlers.py lines 38-74),
instrumented: returns the result dict, the number of `_call_gemini_api`
calls made, and the backoff sleeps taken.  `prompt` does not influence
control flow (the oracle absorbs the network); it is kept for fidelity to
the source signature. -/
def analyze_with_retry (a : APIAnalyzer) (env : Env) (kind : AnalysisKind)
    (_prompt : String) (outcomes : Nat → CallResult) : JDict × Nat × List Nat :=
  let api_key := get_api_key env kind
  if api_key = "" then (get_fallback_response kind "NO_API_KEY", 0, [])
  else analyzeFrom kind outcomes a.retry_delay a.max_retries 0

/-- The composition actually run by the dispatcher: every `_call_gemini_api`
call returns a dict (`CallResult.ok`), never an exception. -/
def liveOutcomes (jsonLoads : String → Option JDict) (po : Nat → ProviderOutcome) :
    Nat → CallResult :=
  fun i => .ok (callGeminiApi jsonLoads (po i))

/-- Spec-words definition (for the refinement comparison of claim C7 only,
not from the source): scanning from a `{`, take the shortest segment whose
braces balance; `none` when the braces starting here never balance. -/
def balancedSeg : List Char → Nat → List Char → Option (List Char)
  | [], _, _ => none
  | c :: rest, depth, acc =>
    if c = '{' then balancedSeg rest (depth + 1) (c :: acc)
    else if c = '}' then
      if depth = 1 then some (c :: acc).reverse
      else balancedSeg rest (depth - 1) (c :: acc)
    else balancedSeg rest depth (c :: acc)

/-- Spec-words definition (claim C7): "the first balanced `{...}` substring"
of the text — at each `{` in order, try the shortest balanced segment from
there, returning the first that closes. -/
def firstBalancedExtract : List Char → Option (List Char)
  | [] => none
  | c :: rest =>
    if c = '{' then
      match balancedSeg (c :: rest) 0 [] with
      | some s => some s
      | none => firstBalancedExtract rest
    else firstBalancedExtract rest

/-- Spec-words definition (claim C7): the extraction pipeline as the claim
describes it — parse the body; if that fails, extract the FIRST BALANCED
`{...}` substring and parse that; `none` means the attempt is treated as a
failure. -/
def claimC7Pipeline (jsonLoads : String → Option JDict) (text : String) : Option JDict :=
  match jsonLoads text with
  | some v => some v
  | none =>
    match firstBalancedExtract text.data with
    | some sub => jsonLoads (String.mk sub)
    | none => none

/-- Job lifecycle statuses, the string values assigned to
`jobs[job_id]["status"]` in `main.py`. -/
inductive Status where
  | queued
  | cloning
  | parsing
  | analyzing
  | done
  | error
deriving DecidableEq, Repr

/-- One job record, the dict created at main.py lines 113-124: status,
progress, the five result slots (absent = `None`), and the top-level error
message. -/
structure JobState where
  status : Status
  progress : Nat
  results : AnalysisKind → Option JDict
  error : Option String

/-- The job record as created by `summarize_repo` (main.py lines 113-124):
status `queued`, progress 0, all five result slots `None`, no error. -/
def initJob : JobState :=
  { status := .queued, progress := 0, results := fun _ => none, error := none }

/-- Outcome of `future.result()` for one analysis task in the dispatcher loop
(main.py lines 183-198): the task returned a dict, or raised. -/
inductive TaskOutcome where
  | ok : JDict → TaskOutcome
  | raises : String → TaskOutcome

/-- The value stored into the task's result slot by the dispatcher loop: the
returned dict on success (main.py line 187), or
`{"error": f"Analysis failed: {str(e)}"}` when `future.result()` raised
(main.py line 195). -/
def storedResult : TaskOutcome → JDict
  | .ok d => d
  | .raises m => [("error", .jstr ("Analysis failed: " ++ m))]

/-- The `as_completed` collection loop of `process_repo_job_multi_api`
(main.py lines 182-198): for each completing task, store its result (or the
caught-fault dict), bump `completed`, and set
`progress = 30 + completed * 14`.  Returns the list of job snapshots after
each completion together with the final state.  `order` is the completion
order the thread pool produced (an oracle). -/
def analysisLoop (task : AnalysisKind → TaskOutcome) :
    JobState → Nat → List AnalysisKind → List JobState × JobState
  | s, _, [] => ([], s)
  | s, completed, k :: rest =>
    let s1 : JobState :=
      { s with
        results := fun k2 => if k2 = k then some (storedResult (task k)) else s.results k2,
        progress := 30 + (completed + 1) * 14 }
    let r := analysisLoop task s1 (completed + 1) rest
    (s1 :: r.1, r.2)

/-- The progress values written by `n` successive completions when
`completed = c` ones have already been counted: `30 + (c+1)*14`,
`30 + (c+2)*14`, .... -/
def stepsFrom (c : Nat) : Nat → List Nat
  | 0 => []
  | n + 1 => (30 + (c + 1) * 14) :: stepsFrom (c + 1) n

/-- `process_repo_job_multi_api` (main.py lines 149-208) over the external
oracles: the clone step (`clone_repo`, may raise), the parse step
(`parse_repo`, may raise), the per-kind task outcomes, and the thread-pool
completion order.  Returns the list of observable job snapshots, in
mutation order, together with the final job state.  The outer `except`
(lines 205-208) sets status `error` and records the message, touching
nothing else. -/
def processRepoJob (cloneRes : Except String Unit) (parseRes : Except String Unit)
    (task : AnalysisKind → TaskOutcome) (order : List AnalysisKind)
    (job0 : JobState) : List JobState × JobState :=
  let s1 : JobState := { job0 with status := .cloning, progress := 10 }
  match cloneRes with
  | .error m =>
    let e : JobState := { s1 with status := .error, error := some m }
    ([s1, e], e)
  | .ok _ =>
    let s2 : JobState := { s1 with status := .parsing, progress := 20 }
    match parseRes with
    | .error m =>
      let e : JobState := { s2 with status := .error, error := some m }
      ([s1, s2, e], e)
    | .ok _ =>
      let s3 : JobState := { s2 with status := .analyzing, progress := 30 }
      let r := analysisLoop task s3 0 order
      let fin : JobState := { r.2 with status := .done, progress := 100 }
      ([s1, s2, s3] ++ r.1 ++ [fin], fin)

/-- The full pipeline as the source wires it: each task is one of the
`run_*_analysis` wrappers (api_handlers.py lines 236-463), i.e.
`analyze_with_retry` on that kind's prompt with the global `api_analyzer`,
which always returns a dict and never raises. -/
def processRepoJobFull (env : Env) (prompts : AnalysisKind → String)
    (outcomes : AnalysisKind → Nat → CallResult)
    (cloneRes parseRes : Except String Unit) (order : List AnalysisKind) :
    List JobState × JobState :=
  processRepoJob cloneRes parseRes
    (fun k => .ok (analyze_with_retry api_analyzer env k (prompts k) (outcomes k)).1)
    order initJob

/-- The well-formed-result shapes `analyze_with_retry` can produce for kind
`kind` under call oracle `outcomes`: one of the three fallback dicts, or a
dict some attempt returned that passed the success test (truthy, no
`"error"` key). -/
def wellFormedResult (kind : AnalysisKind) (outcomes : Nat → CallResult) (d : JDict) : Prop :=
  d = get_fallback_response kind "NO_API_KEY" ∨
  d = get_fallback_response kind "QUOTA_EXCEEDED" ∨
  d = get_fallback_response kind "API_FAILED" ∨
  ∃ i, outcomes i = .ok d ∧ pyTruthy d = true ∧ (d.lookup "error").isNone = true

/-- The attempt at index `attempt` neither succeeds nor signals quota: the
call returned a falsy dict or a dict with an `"error"` key whose text is not
quota-flavoured, or raised a non-quota exception. -/
def failsNonQuota : CallResult → Bool
  | .exn m => !isQuotaMsg m
  | .ok d => !(pyTruthy d && (d.lookup "error").isNone)
             && !isQuotaMsg (pyStr (attemptErrMsg d))

lemma lookup_some_truthy {d : JDict} {k : String} {v : JVal}
    (h : d.lookup k = some v) : pyTruthy d = true := by
  cases d with
  | nil => simp [List.lookup] at h
  | cons a as => simp [pyTruthy, List.isEmpty]

lemma analyzeFrom_zero (kind : AnalysisKind) (outcomes : Nat → CallResult)
    (delay attempt : Nat) :
    analyzeFrom kind outcomes delay 0 attempt
      = (get_fallback_response kind "API_FAILED", 0, []) := rfl

lemma analyzeFrom_succ_exn_quota (kind : AnalysisKind) (outcomes : Nat → CallResult)
    (delay left attempt : Nat) (m : String)
    (h : outcomes attempt = .exn m) (hq : isQuotaMsg m = true) :
    analyzeFrom kind outcomes delay (left + 1) attempt
      = (get_fallback_response kind "QUOTA_EXCEEDED", 1, []) := by
  simp [analyzeFrom, h, hq]

lemma analyzeFrom_succ_ok_success (kind : AnalysisKind) (outcomes : Nat → CallResult)
    (delay left attempt : Nat) (d : JDict)
    (h : outcomes attempt = .ok d)
    (hs : (pyTruthy d && (d.lookup "error").isNone) = true) :
    analyzeFrom kind outcomes delay (left + 1) attempt = (d, 1, []) := by
  simp [analyzeFrom, h, hs]

lemma analyzeFrom_succ_ok_quota (kind : AnalysisKind) (outcomes : Nat → CallResult)
    (delay left attempt : Nat) (d : JDict)
    (h : outcomes attempt = .ok d)
    (hs : (pyTruthy d && (d.lookup "error").isNone) = false)
    (hq : isQuotaMsg (pyStr (attemptErrMsg d)) = true) :
    analyzeFrom kind outcomes delay (left + 1) attempt
      = (get_fallback_response kind "QUOTA_EXCEEDED", 1, []) := by
  simp [analyzeFrom, h, hs, hq]

lemma analyzeFrom_succ_fail (kind : AnalysisKind) (outcomes : Nat → CallResult)
    (delay left attempt : Nat)
    (h : failsNonQuota (outcomes attempt) = true) :
    analyzeFrom kind outcomes delay (left + 1) attempt
      = ((analyzeFrom kind outcomes delay left (attempt + 1)).1,
         (analyzeFrom kind outcomes delay left (attempt + 1)).2.1 + 1,
         (if left > 0 then [delay * (attempt + 1)] else [])
           ++ (analyzeFrom kind outcomes delay left (attempt + 1)).2.2) := by
  cases hc : outcomes attempt with
  | exn m =>
    rw [hc] at h
    simp only [failsNonQuota, Bool.not_eq_true'] at h
    simp [analyzeFrom, hc, h]
  | ok d =>
    rw [hc] at h
    simp only [failsNonQuota, Bool.and_eq_true, Bool.not_eq_true'] at h
    obtain ⟨h1, h2⟩ := h
    simp [analyzeFrom, hc, h1, h2]

lemma analyzeFrom_shape (kind : AnalysisKind) (outcomes : Nat → CallResult) (delay : Nat) :
    ∀ left attempt,
      (analyzeFrom kind outcomes delay left attempt).1
          = get_fallback_response kind "QUOTA_EXCEEDED" ∨
      (analyzeFrom kind outcomes delay left attempt).1
          = get_fallback_response kind "API_FAILED" ∨
      ∃ i, outcomes i = .ok (analyzeFrom kind outcomes delay left attempt).1 ∧
           pyTruthy (analyzeFrom kind outcomes delay left attempt).1 = true ∧
           (((analyzeFrom kind outcomes delay left attempt).1).lookup "error").isNone = true := by
  intro left
  induction left with
  | zero => intro attempt; right; left; rfl
  | succ n ih =>
    intro attempt
    cases hc : outcomes attempt with
    | exn m =>
      by_cases hq : isQuotaMsg m = true
      · left
        rw [analyzeFrom_succ_exn_quota kind outcomes delay n attempt m hc hq]
      · have hf : failsNonQuota (outcomes attempt) = true := by
          rw [hc]; simp [failsNonQuota, Bool.not_eq_true] at hq ⊢; exact hq
        rw [analyzeFrom_succ_fail kind outcomes delay n attempt hf]
        exact ih (attempt + 1)
    | ok d =>
      by_cases hs : (pyTruthy d && (d.lookup "error").isNone) = true
      · right; right
        rw [analyzeFrom_succ_ok_success kind outcomes delay n attempt d hc hs]
        simp only [Bool.and_eq_true] at hs
        exact ⟨attempt, hc, hs.1, hs.2⟩
      · have hs' : (pyTruthy d && (d.lookup "error").isNone) = false := by
          simpa using hs
        by_cases hq : isQuotaMsg (pyStr (attemptErrMsg d)) = true
        · left
          rw [analyzeFrom_succ_ok_quota kind outcomes delay n attempt d hc hs' hq]
        · have hf : failsNonQuota (outcomes attempt) = true := by
            rw [hc]
            simp only [failsNonQuota, Bool.and_eq_true, Bool.not_eq_true']
            exact ⟨hs', by simpa using hq⟩
          rw [analyzeFrom_succ_fail kind outcomes delay n attempt hf]
          exact ih (attempt + 1)

/-- Claim C3: for a kind with a configured credential, a first attempt that
fails with quota-flavoured error text (`"429"` in it, or `"quota"`
case-insensitively) makes exactly one remote call, takes no backoff sleep,
and yields the `QUOTA_EXCEEDED` fallback for that kind. -/
theorem quota_first_attempt_single_call (env : Env) (kind : AnalysisKind)
    (prompt : String) (outcomes : Nat → CallResult)
    (hkey : get_api_key env kind ≠ "")
    (hfail : (∃ d e, outcomes 0 = .ok d ∧ d.lookup "error" = some e ∧
                isQuotaMsg (pyStr e) = true)
           ∨ (∃ m, outcomes 0 = .exn m ∧ isQuotaMsg m = true)) :
    analyze_with_retry api_analyzer env kind prompt outcomes
      = (get_fallback_response kind "QUOTA_EXCEEDED", 1, []) := by
  simp only [analyze_with_retry]
  rw [if_neg hkey]
  show analyzeFrom kind outcomes 1 2 0 = _
  rcases hfail with ⟨d, e, h0, herr, hq⟩ | ⟨m, h0, hq⟩
  · have htr : pyTruthy d = true := lookup_some_truthy herr
    have hmsg : attemptErrMsg d = e := by simp [attemptErrMsg, htr, herr]
    have hs : (pyTruthy d && (d.lookup "error").isNone) = false := by simp [herr]
    exact analyzeFrom_succ_ok_quota kind outcomes 1 1 0 d h0 hs (by rw [hmsg]; exact hq)
  · exact analyzeFrom_succ_exn_quota kind outcomes 1 1 0 m h0 hq

/-- Witness for C3: a concrete configured environment and a first attempt
returning an HTTP 429 error dict produce the quota fallback with exactly one
call and no sleep. -/
theorem quota_first_attempt_single_call_witness :
    analyze_with_retry api_analyzer ⟨fun _ => "key-1", ""⟩ .security "p"
        (fun _ => .ok [("error", .jstr "HTTP 429 too many requests")])
      = (get_fallback_response .security "QUOTA_EXCEEDED", 1, []) :=
  quota_first_attempt_single_call ⟨fun _ => "key-1", ""⟩ .security "p" _
    (by decide)
    (Or.inl ⟨[("error", .jstr "HTTP 429 too many requests")],
             .jstr "HTTP 429 too many requests", rfl, rfl, by decide⟩)

/-- Claim C4: for a kind with a configured credential, when both attempts
fail with non-quota errors, exactly 2 calls are made (the fixed retry
ceiling), the single backoff sleep between them is
`retry_delay * 1 = 1` (base delay times attempt number — linear), and the
result is the `API_FAILED` fallback for that kind. -/
theorem nonquota_failures_two_attempts_api_failed (env : Env) (kind : AnalysisKind)
    (prompt : String) (outcomes : Nat → CallResult)
    (hkey : get_api_key env kind ≠ "")
    (h0 : failsNonQuota (outcomes 0) = true)
    (h1 : failsNonQuota (outcomes 1) = true) :
    analyze_with_retry api_analyzer env kind prompt outcomes
      = (get_fallback_response kind "API_FAILED", 2, [1]) := by
  simp only [analyze_with_retry]
  rw [if_neg hkey]
  show analyzeFrom kind outcomes 1 2 0 = _
  have e0 : analyzeFrom kind outcomes 1 0 2
      = (get_fallback_response kind "API_FAILED", 0, []) := rfl
  have e1 : analyzeFrom kind outcomes 1 1 1
      = ((analyzeFrom kind outcomes 1 0 2).1,
         (analyzeFrom kind outcomes 1 0 2).2.1 + 1,
         (if (0 : Nat) > 0 then [1 * 2] else [])
           ++ (analyzeFrom kind outcomes 1 0 2).2.2) :=
    analyzeFrom_succ_fail kind outcomes 1 0 1 h1
  have e1' : analyzeFrom kind outcomes 1 1 1
      = (get_fallback_response kind "API_FAILED", 1, []) := by
    rw [e1, e0]
    rfl
  have e2 : analyzeFrom kind outcomes 1 2 0
      = ((analyzeFrom kind outcomes 1 1 1).1,
         (analyzeFrom kind outcomes 1 1 1).2.1 + 1,
         (if (1 : Nat) > 0 then [1 * 1] else [])
           ++ (analyzeFrom kind outcomes 1 1 1).2.2) :=
    analyzeFrom_succ_fail kind outcomes 1 1 0 h0
  rw [e2, e1']
  rfl

/-- Witness for C4: a concrete configured environment whose two attempts both
return a non-quota error dict ends with the `API_FAILED` fallback, 2 calls
and the single sleep `[1]`. -/
theorem nonquota_failures_two_attempts_api_failed_witness :
    analyze_with_retry api_analyzer ⟨fun _ => "key-1", ""⟩ .performance "p"
        (fun _ => .ok [("error", .jstr "connection reset by peer")])
      = (get_fallback_response .performance "API_FAILED", 2, [1]) :=
  nonquota_failures_two_attempts_api_failed ⟨fun _ => "key-1", ""⟩ .performance "p" _
    (by decide) (by decide) (by decide)

lemma analyze_with_retry_wellformed_aux (a : APIAnalyzer) (env : Env)
    (kind : AnalysisKind) (prompt : String) (outcomes : Nat → CallResult) :
    wellFormedResult kind outcomes (analyze_with_retry a env kind prompt outcomes).1 := by
  simp only [analyze_with_retry]
  by_cases hk : get_api_key env kind = ""
  · rw [if_pos hk]
    exact Or.inl rfl
  · rw [if_neg hk]
    rcases analyzeFrom_shape kind outcomes a.retry_delay a.max_retries 0 with h | h | h
    · exact Or.inr (Or.inl h)
    · exact Or.inr (Or.inr (Or.inl h))
    · exact Or.inr (Or.inr (Or.inr h))

/-- Claim C5: `analyze_with_retry` never raises — in this embedding it is a
total function — and on every path (missing credential, provider exception,
unparseable response, exhausted retries) the dict it returns is one of the
three fixed fallback shapes or a dict some attempt returned that passed the
success test. -/
theorem analyze_with_retry_always_wellformed (a : APIAnalyzer) (env : Env)
    (kind : AnalysisKind) (prompt : String) (outcomes : Nat → CallResult) :
    wellFormedResult kind outcomes (analyze_with_retry a env kind prompt outcomes).1 :=
  analyze_with_retry_wellformed_aux a env kind prompt outcomes

/-- Claim C9: when the kind-specific credential slot is empty, either no
default credential exists and `analyze_with_retry` short-circuits to the
`NO_API_KEY` fallback with zero calls made, or the default credential exists
and `get_api_key` returns exactly it. -/
theorem no_credential_shortcircuit_or_default (env : Env) (kind : AnalysisKind)
    (prompt : String) (outcomes : Nat → CallResult)
    (hspec : env.gemini_apis kind = "") :
    (env.default_api_key = "" →
       analyze_with_retry api_analyzer env kind prompt outcomes
         = (get_fallback_response kind "NO_API_KEY", 0, [])) ∧
    (env.default_api_key ≠ "" → get_api_key env kind = env.default_api_key) := by
  constructor
  · intro hd
    have hk : get_api_key env kind = "" := by simp [get_api_key, hspec, hd]
    simp [analyze_with_retry, hk]
  · intro hd
    simp [get_api_key, hspec, hd]

/-- Witness for C9: with all slots empty the `security` kind short-circuits
to the `NO_API_KEY` fallback with zero calls; with only the default slot set
the default key is used. -/
theorem no_credential_shortcircuit_or_default_witness :
    (analyze_with_retry api_analyzer ⟨fun _ => "", ""⟩ .security "p" (fun _ => .exn "net")
       = (get_fallback_response .security "NO_API_KEY", 0, [])) ∧
    (get_api_key ⟨fun _ => "", "default-key"⟩ .security = "default-key") :=
  ⟨(no_credential_shortcircuit_or_default ⟨fun _ => "", ""⟩ .security "p"
      (fun _ => .exn "net") rfl).1 rfl,
   (no_credential_shortcircuit_or_default ⟨fun _ => "", "default-key"⟩ .security "p"
      (fun _ => .exn "net") rfl).2 (by decide)⟩

/-- Claim C10: `_call_gemini_api` is total — the composition the dispatcher
actually runs never produces an exception outcome, a provider fault comes
back as `{"error": str(e)}`, and when both the raw body and the extracted
substring fail to parse the returned mapping carries the fixed parse-error
message under `"error"`.  Consequently the defensive `except` branch of
`analyze_with_retry` is unreachable for remote-call faults. -/
theorem call_gemini_api_total_failures_tagged
    (jsonLoads : String → Option JDict) (po : ProviderOutcome) :
    (∀ i (po2 : Nat → ProviderOutcome) m, liveOutcomes jsonLoads po2 i ≠ .exn m) ∧
    (∀ m, po = .raises m → callGeminiApi jsonLoads po = [("error", .jstr m)]) ∧
    (∀ text, po = .responds text → jsonLoads text = none →
       (∀ sub, greedyBraceExtract text.data = some sub →
          jsonLoads (String.mk sub) = none) →
       (callGeminiApi jsonLoads po).lookup "error"
         = some (.jstr "Could not parse response as JSON")) := by
  refine ⟨?_, ?_, ?_⟩
  · intro i po2 m
    simp [liveOutcomes]
  · intro m hm
    subst hm
    rfl
  · intro text ht hraw hsub
    subst ht
    show (extractJson jsonLoads text).lookup "error" = _
    unfold extractJson
    rw [hraw]
    dsimp only
    cases hg : greedyBraceExtract text.data with
    | none => rfl
    | some sub =>
      dsimp only
      rw [hsub sub hg]
      rfl

/-- Witness for C10: with a parse that always fails, a provider fault is
tagged under `"error"`, an unextractable body yields the fixed parse-error
mapping, and the live composition is never an exception outcome. -/
theorem call_gemini_api_total_failures_tagged_witness :
    (liveOutcomes (fun _ => none) (fun _ => .responds "abc") 0 ≠ .exn "x") ∧
    (callGeminiApi (fun _ => none) (.raises "boom") = [("error", .jstr "boom")]) ∧
    ((callGeminiApi (fun _ => none) (.responds "abc")).lookup "error"
       = some (.jstr "Could not parse response as JSON")) :=
  ⟨(call_gemini_api_total_failures_tagged (fun _ => none) (.responds "abc")).1 0
      (fun _ => .responds "abc") "x",
   (call_gemini_api_total_failures_tagged (fun _ => none) (.raises "boom")).2.1 "boom" rfl,
   (call_gemini_api_total_failures_tagged (fun _ => none) (.responds "abc")).2.2 "abc" rfl rfl
     (by intro sub h; rw [show greedyBraceExtract "abc".data = none by decide] at h)⟩

lemma mem_allKinds (k : AnalysisKind) : k ∈ allKinds := by
  cases k <;> simp [allKinds]

/-- Counterexample for claim C7.  On the body `x{"a": 1}y{"b": 2}z` (not
itself valid JSON) the source's greedy regex extracts `{"a": 1}y{"b": 2}`
(first `{` through LAST `}`), which is not the first balanced `{...}`
substring `{"a": 1}`; the code therefore treats the attempt as a failure
while the claim predicts success with `{"a": 1}`.  The parse oracle below
agrees with `json.loads` on every string it is applied to here: it fails on
the full body and on the greedy extract (both invalid JSON) and succeeds
exactly on `{"a": 1}`. -/
theorem json_extraction_first_balanced_counterexample :
    greedyBraceExtract ("x\x7b\x22a\x22: 1\x7dy\x7b\x22b\x22: 2\x7dz").data
        ≠ firstBalancedExtract ("x\x7b\x22a\x22: 1\x7dy\x7b\x22b\x22: 2\x7dz").data ∧
    (callGeminiApi
        (fun s => if s = "\x7b\x22a\x22: 1\x7d" then some [("a", JVal.jnum 1)] else none)
        (.responds "x\x7b\x22a\x22: 1\x7dy\x7b\x22b\x22: 2\x7dz")).lookup "error"
      = some (.jstr "Could not parse response as JSON") ∧
    claimC7Pipeline
        (fun s => if s = "\x7b\x22a\x22: 1\x7d" then some [("a", JVal.jnum 1)] else none)
        "x\x7b\x22a\x22: 1\x7dy\x7b\x22b\x22: 2\x7dz"
      = some [("a", JVal.jnum 1)] := by
  refine ⟨by decide, ?_, ?_⟩
  · rfl
  · rfl

/-- Claim C7 (amended): when the raw body is not valid JSON, the client
extracts the substring spanning from the first `{` (that has a later `}`)
through the LAST `}` of the body — the greedy `re.search` match — and parses
that; only if no such substring exists, or that parse also fails, is the
attempt treated as a failure (the fixed parse-error dict carrying the raw
response). -/
theorem json_substring_extraction_greedy (jsonLoads : String → Option JDict)
    (text : String) (hraw : jsonLoads text = none) :
    (greedyBraceExtract text.data = none →
       extractJson jsonLoads text
         = [("error", .jstr "Could not parse response as JSON"),
            ("raw_response", .jstr text)]) ∧
    (∀ sub, greedyBraceExtract text.data = some sub →
       (∀ v, jsonLoads (String.mk sub) = some v → extractJson jsonLoads text = v) ∧
       (jsonLoads (String.mk sub) = none →
          extractJson jsonLoads text
            = [("error", .jstr "Could not parse response as JSON"),
               ("raw_response", .jstr text)])) := by
  constructor
  · intro hg
    unfold extractJson
    rw [hraw]
    dsimp only
    rw [hg]
  · intro sub hg
    constructor
    · intro v hv
      unfold extractJson
      rw [hraw]
      dsimp only
      rw [hg]
      dsimp only
      rw [hv]
    · intro hv
      unfold extractJson
      rw [hraw]
      dsimp only
      rw [hg]
      dsimp only
      rw [hv]

/-- Witness for the amended C7: a body with no brace pair at all fails with
the fixed parse-error dict. -/
theorem json_substring_extraction_greedy_witness :
    extractJson (fun _ => none) "hello"
      = [("error", .jstr "Could not parse response as JSON"),
         ("raw_response", .jstr "hello")] :=
  (json_substring_extraction_greedy (fun _ => none) "hello" rfl).1 (by decide)

lemma analysisLoop_results (task : AnalysisKind → TaskOutcome) :
    ∀ (order : List AnalysisKind) (s : JobState) (completed : Nat) (k : AnalysisKind),
      (analysisLoop task s completed order).2.results k
        = if k ∈ order then some (storedResult (task k)) else s.results k := by
  intro order
  induction order with
  | nil => intro s c k; simp [analysisLoop]
  | cons a rest ih =>
    intro s c k
    rw [analysisLoop]
    dsimp only
    rw [ih]
    by_cases hk : k ∈ rest
    · simp [hk, List.mem_cons]
    · by_cases hka : k = a
      · subst hka
        simp [hk]
      · simp [hk, hka, List.mem_cons]

/-- Counterexample for claim C2.  With the architecture task raising "boom",
the dispatcher stores `{"error": "Analysis failed: boom"}` in that slot —
raw exception text in a bare error dict — which is NOT the kind's
`API_FAILED` fallback schema (that schema has no `"error"` key and starts
with `"architecture_summary"`). -/
theorem dispatcher_fault_counterexample :
    ((processRepoJob (.ok ()) (.ok ())
        (fun k => match k with
          | .architecture_flow => .raises "boom"
          | _ => .ok [("ok", .jbool true)])
        allKinds initJob).2.results .architecture_flow
      = some [("error", .jstr "Analysis failed: boom")]) ∧
    [("error", JVal.jstr "Analysis failed: boom")]
      ≠ get_fallback_response .architecture_flow "API_FAILED" := by
  constructor
  · rfl
  · intro h
    exact absurd
      (congrArg (fun d => (List.lookup "architecture_summary" d).isSome) h)
      (by decide)

/-- Claim C2 (amended): an unhandled fault in a dispatched task is caught at
the task boundary and the dispatcher stores
`{"error": "Analysis failed: <message>"}` (carrying the fault's message) in
that kind's result slot; the fault never propagates — the job still reaches
`done`. -/
theorem dispatcher_fault_stored_error_dict (task : AnalysisKind → TaskOutcome)
    (order : List AnalysisKind) (k : AnalysisKind) (m : String)
    (hmem : k ∈ order) (hk : task k = .raises m) :
    (processRepoJob (.ok ()) (.ok ()) task order initJob).2.results k
        = some [("error", .jstr ("Analysis failed: " ++ m))] ∧
    (processRepoJob (.ok ()) (.ok ()) task order initJob).2.status = .done := by
  constructor
  · have hres : (processRepoJob (.ok ()) (.ok ()) task order initJob).2.results k
        = (analysisLoop task { initJob with status := .analyzing, progress := 30 }
             0 order).2.results k := rfl
    rw [hres, analysisLoop_results]
    simp [hmem, hk, storedResult]
  · rfl

/-- Witness for the amended C2: a concrete run in which every task raises
"boom" stores the caught-fault dict in the `mind_map` slot and still reaches
`done`. -/
theorem dispatcher_fault_stored_error_dict_witness :
    (processRepoJob (.ok ()) (.ok ()) (fun _ => TaskOutcome.raises "boom")
        allKinds initJob).2.results .mind_map
      = some [("error", JVal.jstr ("Analysis failed: " ++ "boom"))] :=
  (dispatcher_fault_stored_error_dict (fun _ => .raises "boom") allKinds .mind_map "boom"
    (by decide) rfl).1

/-- Claim C8: when the clone step raises (first conjunct) or the parse step
raises (second conjunct), the job ends with status `error` and the raised
message recorded, the five result slots stay absent, and the trace of
snapshots ends at the error state — no further status or progress mutation
occurs. -/
theorem clone_or_parse_failure_terminal (m : String) (task : AnalysisKind → TaskOutcome)
    (order : List AnalysisKind) (parseRes : Except String Unit) :
    (processRepoJob (.error m) parseRes task order initJob
       = ([{ initJob with status := .cloning, progress := 10 },
           { initJob with status := .error, progress := 10, error := some m }],
          { initJob with status := .error, progress := 10, error := some m }) ∧
     ∀ k, (processRepoJob (.error m) parseRes task order initJob).2.results k = none) ∧
    (processRepoJob (.ok ()) (.error m) task order initJob
       = ([{ initJob with status := .cloning, progress := 10 },
           { initJob with status := .parsing, progress := 20 },
           { initJob with status := .error, progress := 20, error := some m }],
          { initJob with status := .error, progress := 20, error := some m }) ∧
     ∀ k, (processRepoJob (.ok ()) (.error m) task order initJob).2.results k = none) :=
  ⟨⟨rfl, fun _ => rfl⟩, ⟨rfl, fun _ => rfl⟩⟩

/-- Claim C1: every job whose status reaches `done` has all five result
slots filled, each with a structurally valid dict (a success payload that
passed the success test, or one of the fixed fallback shapes), and its
progress equals 100. -/
theorem done_implies_five_wellformed_results (env : Env)
    (prompts : AnalysisKind → String) (outcomes : AnalysisKind → Nat → CallResult)
    (cloneRes parseRes : Except String Unit) (order : List AnalysisKind)
    (horder : order.Perm allKinds)
    (hdone : (processRepoJobFull env prompts outcomes cloneRes parseRes order).2.status
               = .done) :
    (processRepoJobFull env prompts outcomes cloneRes parseRes order).2.progress = 100 ∧
    ∀ k, ∃ d,
      (processRepoJobFull env prompts outcomes cloneRes parseRes order).2.results k
          = some d ∧
      wellFormedResult k (outcomes k) d := by
  cases cloneRes with
  | error m =>
    have hst : (processRepoJobFull env prompts outcomes (.error m) parseRes order).2.status
        = .error := rfl
    rw [hst] at hdone
    exact Status.noConfusion hdone
  | ok u =>
    cases parseRes with
    | error m =>
      have hst : (processRepoJobFull env prompts outcomes (.ok u) (.error m) order).2.status
          = .error := rfl
      rw [hst] at hdone
      exact Status.noConfusion hdone
    | ok u2 =>
      refine ⟨rfl, ?_⟩
      intro k
      refine ⟨(analyze_with_retry api_analyzer env k (prompts k) (outcomes k)).1, ?_, ?_⟩
      · have hmem : k ∈ order := horder.mem_iff.mpr (mem_allKinds k)
        have hres : (processRepoJobFull env prompts outcomes (.ok u) (.ok u2) order).2.results k
            = (analysisLoop
                 (fun k2 => TaskOutcome.ok
                   (analyze_with_retry api_analyzer env k2 (prompts k2) (outcomes k2)).1)
                 { initJob with status := .analyzing, progress := 30 } 0 order).2.results k :=
          rfl
        rw [hres, analysisLoop_results]
        simp [hmem, storedResult]
      · exact analyze_with_retry_wellformed_aux api_analyzer env k (prompts k) (outcomes k)

/-- Witness for C1: a concrete all-fallback run (no credentials configured,
clone and parse succeed) reaches `done` with progress 100. -/
theorem done_implies_five_wellformed_results_witness :
    (processRepoJobFull ⟨fun _ => "", ""⟩ (fun _ => "") (fun _ _ => .exn "x")
        (.ok ()) (.ok ()) allKinds).2.progress = 100 :=
  (done_implies_five_wellformed_results ⟨fun _ => "", ""⟩ (fun _ => "")
    (fun _ _ => .exn "x") (.ok ()) (.ok ()) allKinds (List.Perm.refl allKinds) rfl).1

lemma analysisLoop_trace_progress (task : AnalysisKind → TaskOutcome) :
    ∀ (order : List AnalysisKind) (s : JobState) (c : Nat),
      ((analysisLoop task s c order).1).map (fun st => st.progress)
        = stepsFrom c order.length := by
  intro order
  induction order with
  | nil => intro s c; simp [analysisLoop, stepsFrom]
  | cons a rest ih =>
    intro s c
    rw [analysisLoop]
    dsimp only
    rw [List.map_cons, ih]
    rfl

lemma analysisLoop_trace_status (task : AnalysisKind → TaskOutcome) :
    ∀ (order : List AnalysisKind) (s : JobState) (c : Nat),
      ((analysisLoop task s c order).1).map (fun st => st.status)
        = List.replicate order.length s.status := by
  intro order
  induction order with
  | nil => intro s c; simp [analysisLoop]
  | cons a rest ih =>
    intro s c
    rw [analysisLoop]
    dsimp only
    rw [List.map_cons, ih]
    simp [List.replicate_succ]

/-- Claim C6: over the sequence of observed job states, progress is
monotonically non-decreasing (on every path, the terminal state last), and
on the path where clone and parse succeed the observed progress values are
exactly 10 (entering cloning), 20 (entering parsing), 30 (entering
analyzing), then 44, 58, 72, 86, 100 — one +14 step per completion in
whatever order the five kinds finish — ending at 100 with status `done`. -/
theorem progress_monotone_with_fixed_steps (cloneRes parseRes : Except String Unit)
    (task : AnalysisKind → TaskOutcome) (order : List AnalysisKind)
    (horder : order.Perm allKinds) :
    List.Chain' (· ≤ ·)
      (((processRepoJob cloneRes parseRes task order initJob).1).map
        (fun st => st.progress)) ∧
    (cloneRes = .ok () → parseRes = .ok () →
      ((processRepoJob cloneRes parseRes task order initJob).1).map (fun st => st.progress)
          = [10, 20, 30, 44, 58, 72, 86, 100, 100] ∧
      ((processRepoJob cloneRes parseRes task order initJob).1).map (fun st => st.status)
          = [.cloning, .parsing, .analyzing, .analyzing, .analyzing, .analyzing,
             .analyzing, .analyzing, .done] ∧
      (processRepoJob cloneRes parseRes task order initJob).2.status = .done ∧
      (processRepoJob cloneRes parseRes task order initJob).2.progress = 100) := by
  have hlen : order.length = 5 := horder.length_eq
  cases cloneRes with
  | error m =>
    constructor
    · show List.Chain' (· ≤ ·) [10, 10]
      norm_num [List.chain'_cons]
    · intro hc
      exact Except.noConfusion hc
  | ok u =>
    cases parseRes with
    | error m =>
      constructor
      · show List.Chain' (· ≤ ·) [10, 20, 20]
        norm_num [List.chain'_cons]
      · intro _ hp
        exact Except.noConfusion hp
    | ok u2 =>
      have hsplit : (processRepoJob (.ok u) (.ok u2) task order initJob).1
          = [{ initJob with status := .cloning, progress := 10 },
             { initJob with status := .parsing, progress := 20 },
             { initJob with status := .analyzing, progress := 30 }]
            ++ (analysisLoop task
                 { initJob with status := .analyzing, progress := 30 } 0 order).1
            ++ [{ (analysisLoop task
                    { initJob with status := .analyzing, progress := 30 } 0 order).2
                  with status := .done, progress := 100 }] := rfl
      have hprog : ((processRepoJob (.ok u) (.ok u2) task order initJob).1).map
          (fun st => st.progress)
          = [10, 20, 30] ++ stepsFrom 0 order.length ++ [100] := by
        rw [hsplit, List.map_append, List.map_append, analysisLoop_trace_progress]
        rfl
      have hprog5 : ((processRepoJob (.ok u) (.ok u2) task order initJob).1).map
          (fun st => st.progress) = [10, 20, 30, 44, 58, 72, 86, 100, 100] := by
        rw [hprog, hlen]
        rfl
      have hstat : ((processRepoJob (.ok u) (.ok u2) task order initJob).1).map
          (fun st => st.status)
          = [.cloning, .parsing, .analyzing]
            ++ List.replicate order.length Status.analyzing
            ++ [.done] := by
        rw [hsplit, List.map_append, List.map_append, analysisLoop_trace_status]
        rfl
      have hstat5 : ((processRepoJob (.ok u) (.ok u2) task order initJob).1).map
          (fun st => st.status)
          = [.cloning, .parsing, .analyzing, .analyzing, .analyzing, .analyzing,
             .analyzing, .analyzing, .done] := by
        rw [hstat, hlen]
        rfl
      refine ⟨?_, fun _ _ => ⟨hprog5, hstat5, rfl, rfl⟩⟩
      rw [hprog5]
      norm_num [List.chain'_cons]

/-- Witness for C6: a concrete successful run over the canonical completion
order shows the exact progress sequence. -/
theorem progress_monotone_with_fixed_steps_witness :
    ((processRepoJob (.ok ()) (.ok ()) (fun _ => TaskOutcome.ok [("ok", .jbool true)])
        allKinds initJob).1).map (fun st => st.progress)
      = [10, 20, 30, 44, 58, 72, 86, 100, 100] :=
  ((progress_monotone_with_fixed_steps (.ok ()) (.ok ())
      (fun _ => TaskOutcome.ok [("ok", .jbool true)]) allKinds
      (List.Perm.refl allKinds)).2 rfl rfl).1

end RepoAnalyzer
